import Mathlib

/-!
Shallow embedding of the SmartSense sensor-network core
(`src/smartsense/core/monitor.py`, `src/smartsense/api/routes.py`,
`src/smartsense/sensors/base.py`).

Numeric reading values, thresholds and times are modelled as rationals;
the Python `datetime` values entering the cooldown computation are modelled
as rational instants (seconds), so `(now - last_triggered).total_seconds()`
becomes plain subtraction. A Python callback is modelled by the boolean
outcome of invoking it: `true` = returns normally, `false` = raises; the
`try/except` around each action invocation makes this the only observable
behaviour of a callback during alert processing. Python dicts are modelled
as insertion-ordered association lists with the dict update semantics
(assignment to an existing key replaces in place, to a new key appends).
-/

namespace SmartSense

/-- Lookup in an insertion-ordered association list (Python `d[k]` / `d.get(k)`). -/
def dictGet (d : List (String × α)) (k : String) : Option α :=
  match d with
  | [] => none
  | (k', v) :: rest => if k' = k then some v else dictGet rest k

/-- Python dict assignment `d[k] = v`: replace in place when the key exists,
append a new binding otherwise. -/
def dictInsert (k : String) (v : α) (d : List (String × α)) : List (String × α) :=
  if (dictGet d k).isSome then
    d.map fun p => if p.1 = k then (k, v) else p
  else
    d ++ [(k, v)]

/-- Python dict removal `d.pop(k, None)`. -/
def dictErase (k : String) (d : List (String × α)) : List (String × α) :=
  d.filter fun p => p.1 ≠ k

/-- `AlertCondition.value : Union[float, List[float]]` from `monitor.py`. -/
inductive ThresholdVal where
  | scalar (t : ℚ)
  | list (ts : List ℚ)
deriving DecidableEq

/-- `AlertAction` from `monitor.py`; `ok` is the outcome of invoking the
callback (`true` = returns, `false` = raises). -/
structure AlertAction where
  name : String
  ok : Bool
deriving DecidableEq

/-- `AlertCondition` from `monitor.py` (`comparison_buffer` defaults to 0). -/
structure AlertCondition where
  sensor_id : String
  field : String
  operator : String
  value : ThresholdVal
  comparison_buffer : ℚ := 0
deriving DecidableEq

/-- `Alert` from `monitor.py`. `cooldown` is an integer number of seconds in
the source; it is embedded into ℚ to compare with the elapsed time. -/
structure Alert where
  id : String
  name : String
  condition : AlertCondition
  actions : List AlertAction
  triggered : Bool := false
  last_triggered : Option ℚ := none
  cooldown : ℚ := 0
deriving DecidableEq

/-- `SensorReading` from `sensors/base.py`: pydantic model with
`extra = "allow"`; the dynamically attached numeric fields are the
association list `fields`, and `hasattr`/`getattr` is `dictGet`. -/
structure SensorReading where
  sensor_id : String
  timestamp : ℚ
  fields : List (String × ℚ)
deriving DecidableEq

/-- The descriptor part of `Sensor` from `sensors/base.py` (the polling
callable itself is an external collaborator). -/
structure Sensor where
  id : String
  name : String
  type : String
  update_interval : ℚ
deriving DecidableEq

/-- `SensorNetwork` state from `monitor.py`. -/
structure SensorNetwork where
  name : String
  update_interval : ℚ
  sensors : List (String × Sensor)
  readings : List (String × List SensorReading)
  alerts : List Alert
  running : Bool
deriving DecidableEq

/-- `SensorNetwork.add_sensor`: dict assignment for the sensor (replacing an
existing sensor with the same id) and an unconditional reset of that id's
reading list to `[]`. -/
def addSensor (net : SensorNetwork) (s : Sensor) : SensorNetwork :=
  { net with
    sensors := dictInsert s.id s net.sensors
    readings := dictInsert s.id [] net.readings }

/-- `SensorNetwork.remove_sensor`: pops the sensor and its reading log and
returns `true` when the id was registered, otherwise returns `false` and
changes nothing. -/
def removeSensor (net : SensorNetwork) (sensor_id : String) : Bool × SensorNetwork :=
  if (dictGet net.sensors sensor_id).isSome then
    (true, { net with
              sensors := dictErase sensor_id net.sensors
              readings := dictErase sensor_id net.readings })
  else
    (false, net)

/-- `SensorNetwork.add_alert`. The source raises `ValueError` when the sensor
id is unknown, before any mutation; this is the `.error` branch paired with
the unchanged network. Otherwise it appends the new alert and returns its id
`"alert_" ++ toString (previous count + 1)`. Actions are given as
`(name, outcome)` pairs. No validation of `operator` or of the threshold
shape happens here. -/
def addAlert (net : SensorNetwork) (sensor_id field operator : String)
    (value : ThresholdVal) (actions : List (String × Bool))
    (alert_name : Option String) (cooldown : ℚ) :
    Except String String × SensorNetwork :=
  match dictGet net.sensors sensor_id with
  | none =>
      (Except.error ("Sensor with ID '" ++ sensor_id ++ "' does not exist"), net)
  | some sensor =>
      let alert_id := "alert_" ++ toString (net.alerts.length + 1)
      let nm := alert_name.getD ("Alert for " ++ sensor.name ++ "." ++ field)
      let alert_actions := actions.map fun p => AlertAction.mk p.1 p.2
      let condition : AlertCondition :=
        { sensor_id := sensor_id, field := field, operator := operator, value := value }
      let alert : Alert :=
        { id := alert_id, name := nm, condition := condition,
          actions := alert_actions, cooldown := cooldown }
      (Except.ok alert_id, { net with alerts := net.alerts ++ [alert] })

/-- The `if/elif` operator chain of `_process_alerts` (monitor.py lines
225-234), error path included: `value > threshold` / `value < threshold` /
`abs(value - threshold)` applied to a list threshold raises `TypeError` in
Python, embedded as `none`. Every non-raising evaluation yields `some b`:
`triggered` starts `False` and is set only by a matching branch, so an
unknown operator, `between` with a scalar threshold, or `between` with a
list that is not two elements long yields `some false` without raising. -/
def conditionMet (operator : String) (threshold : ThresholdVal) (buffer : ℚ)
    (value : ℚ) : Option Bool :=
  if operator = "gt" then
    match threshold with
    | .scalar t => some (decide (value > t))
    | .list _ => none
  else if operator = "lt" then
    match threshold with
    | .scalar t => some (decide (value < t))
    | .list _ => none
  else if operator = "eq" then
    match threshold with
    | .scalar t => some (decide (|value - t| ≤ buffer))
    | .list _ => none
  else if operator = "neq" then
    match threshold with
    | .scalar t => some (decide (|value - t| > buffer))
    | .list _ => none
  else if operator = "between" then
    match threshold with
    | .list [lo, hi] => some (decide (lo ≤ value) && decide (value ≤ hi))
    | _ => some false
  else some false

/-- The condition check of one alert against one reading value
(`some b` = evaluated to `b`, `none` = the evaluation raised). -/
def alertConditionMet (alert : Alert) (value : ℚ) : Option Bool :=
  conditionMet alert.condition.operator alert.condition.value
    alert.condition.comparison_buffer value

/-- `cooldown_ok` from `_process_alerts`: `True` when `last_triggered` is
unset, else elapsed time strictly greater than `cooldown`. -/
def cooldownOk (alert : Alert) (now : ℚ) : Bool :=
  match alert.last_triggered with
  | none => true
  | some t => decide (now - t > alert.cooldown)

/-- The action loop of `_process_alerts`: each callback is invoked inside
`try/except`, so every action runs regardless of earlier failures; the
result records, in order, each action's name and outcome. -/
def runActions (actions : List AlertAction) : List (String × Bool) :=
  actions.map fun a => (a.name, a.ok)

/-- One iteration of the `_process_alerts` loop for one alert: skip when the
alert watches a different sensor or the reading lacks the configured field;
when the condition evaluation raises (`alertConditionMet = none`) the
exception propagates (`.error`) with the alert untouched and no actions run;
otherwise apply the trigger / clear / no-change transition. The `.ok` value
is the updated alert and the list of performed action invocations. -/
def evalAlert (alert : Alert) (reading : SensorReading) (now : ℚ) :
    Except String (Alert × List (String × Bool)) :=
  if alert.condition.sensor_id ≠ reading.sensor_id then Except.ok (alert, [])
  else
    match dictGet reading.fields alert.condition.field with
    | none => Except.ok (alert, [])
    | some value =>
        match alertConditionMet alert value with
        | none => Except.error "TypeError"
        | some met =>
            if met && !alert.triggered && cooldownOk alert now then
              Except.ok
                ({ alert with triggered := true, last_triggered := some now },
                 runActions alert.actions)
            else if !met && alert.triggered then
              Except.ok ({ alert with triggered := false }, [])
            else
              Except.ok (alert, [])

/-- `_process_alerts` over the whole alert list: alerts are mutated in place
as the loop advances, so an exception raised at one alert (propagating to
the polling loop's `except`) keeps the updates of the alerts before it,
aborts the loop, and leaves the raising alert and all later alerts
unchanged. Result: the alert list after the call, the performed action
invocations in order, and the escaped exception if any. -/
def processAlerts (alerts : List Alert) (reading : SensorReading) (now : ℚ) :
    List Alert × List (String × Bool) × Option String :=
  match alerts with
  | [] => ([], [], none)
  | a :: rest =>
      match evalAlert a reading now with
      | Except.error e => (a :: rest, [], some e)
      | Except.ok (a', runs) =>
          let r := processAlerts rest reading now
          (a' :: r.1, runs ++ r.2.1, r.2.2)

/-- The reading-append step of `_poll_sensor`
(`self.readings[sensor.id].append(reading)`): appends to the existing log.
For an unregistered id the source raises `KeyError` (caught by the polling
loop); such an id has no binding and the map leaves the store unchanged. -/
def appendReading (net : SensorNetwork) (sensor_id : String) (r : SensorReading) :
    SensorNetwork :=
  { net with
    readings := net.readings.map fun p =>
      if p.1 = sensor_id then (p.1, p.2 ++ [r]) else p }

/-- `network.readings.get(sensor_id, [])` from the readings route. -/
def storedReadings (net : SensorNetwork) (sensor_id : String) : List SensorReading :=
  (dictGet net.readings sensor_id).getD []

/-- Structured API failure (`HTTPException` in `routes.py`). -/
inductive ApiError where
  | notFound (detail : String)
  | badRequest (detail : String)
deriving DecidableEq

/-- `valid_operators` from `routes.py` `create_alert`. -/
def validOperators : List String := ["gt", "lt", "eq", "neq", "between"]

/-- `True` exactly on the `.ok` constructor. -/
def exceptOk (e : Except ε α) : Bool :=
  match e with
  | .ok _ => true
  | .error _ => false

/-- `create_alert` from `routes.py`: 404 when the sensor id is unknown,
400 when the operator is outside `validOperators` (the source message also
lists the valid set), otherwise delegates to `addAlert` with the single
placeholder logging action. No check of the threshold shape is performed.
Returns the updated network and the new alert id. -/
def createAlert (net : SensorNetwork) (sensor_id field operator : String)
    (value : ThresholdVal) (alert_name : Option String) (cooldown : ℚ) :
    Except ApiError (SensorNetwork × String) :=
  if (dictGet net.sensors sensor_id).isNone then
    Except.error (.notFound ("Sensor with ID '" ++ sensor_id ++ "' not found"))
  else if !(validOperators.contains operator) then
    Except.error (.badRequest ("Invalid operator: " ++ operator))
  else
    match addAlert net sensor_id field operator value [("log", true)] alert_name cooldown with
    | (Except.ok alert_id, net') => Except.ok (net', alert_id)
    | (Except.error e, _) => Except.error (.badRequest e)

/-- The removal scan of `delete_alert` in `routes.py`: pop the first alert
with a matching id. -/
def removeFirstAlert (alerts : List Alert) (alert_id : String) : List Alert :=
  match alerts with
  | [] => []
  | a :: rest => if a.id = alert_id then rest else a :: removeFirstAlert rest alert_id

/-- `delete_alert` from `routes.py`: removes the first alert with the given
id, 404 when no alert matches. -/
def deleteAlert (net : SensorNetwork) (alert_id : String) :
    Except ApiError SensorNetwork :=
  if net.alerts.any fun a => a.id == alert_id then
    Except.ok { net with alerts := removeFirstAlert net.alerts alert_id }
  else
    Except.error (.notFound ("Alert with ID '" ++ alert_id ++ "' not found"))

/-- Python `xs[-limit:]` for `limit ≥ 1`. -/
def takeLast (n : Nat) (xs : List α) : List α :=
  xs.drop (xs.length - n)

/-- The time filters of `get_sensor_readings`: keep readings with
`start_time ≤ timestamp` and then those with `timestamp ≤ end_time`,
each filter applied only when its bound is given. -/
def timeFilter (start_time end_time : Option ℚ) (rs : List SensorReading) :
    List SensorReading :=
  let rs1 :=
    match start_time with
    | some st => rs.filter fun r => decide (st ≤ r.timestamp)
    | none => rs
  match end_time with
  | some et => rs1.filter fun r => decide (r.timestamp ≤ et)
  | none => rs1

/-- `get_sensor_readings` from `routes.py`: 404 when the sensor id is not
registered; otherwise the stored log (empty default), time-filtered, then
`readings[-limit:]`. -/
def getSensorReadings (net : SensorNetwork) (sensor_id : String) (limit : Nat)
    (start_time end_time : Option ℚ) : Except ApiError (List SensorReading) :=
  if (dictGet net.sensors sensor_id).isNone then
    Except.error (.notFound ("Sensor with ID '" ++ sensor_id ++ "' not found"))
  else
    Except.ok (takeLast limit (timeFilter start_time end_time (storedReadings net sensor_id)))

/-- The route declares `limit: int = Query(10, ge=1, le=1000)`: a request
that omits `limit` uses this value. -/
def defaultReadingsLimit : Nat := 10

/-- `get_sensor_readings` as invoked with no `limit` query parameter. -/
def getSensorReadingsDefault (net : SensorNetwork) (sensor_id : String)
    (start_time end_time : Option ℚ) : Except ApiError (List SensorReading) :=
  getSensorReadings net sensor_id defaultReadingsLimit start_time end_time

/-! ### Concrete fixtures used by witnesses and counterexamples -/

def exSensor : Sensor :=
  { id := "s1", name := "Temp", type := "temperature", update_interval := 1 }

def exNet0 : SensorNetwork :=
  addSensor
    { name := "n", update_interval := 1, sensors := [], readings := [],
      alerts := [], running := false }
    exSensor

def exNet1 : SensorNetwork :=
  (addAlert exNet0 "s1" "temperature" "gt" (.scalar 25) [] none 0).2

def exNet2 : SensorNetwork :=
  (addAlert exNet1 "s1" "temperature" "lt" (.scalar 5) [] none 0).2

def exNet3 : SensorNetwork :=
  match deleteAlert exNet2 "alert_1" with
  | .ok n => n
  | .error _ => exNet2

def mkR (i : Nat) : SensorReading :=
  { sensor_id := "s1", timestamp := i, fields := [("temperature", 20)] }

def exNetR : SensorNetwork :=
  (List.range 11).foldl (fun n i => appendReading n "s1" (mkR i)) exNet0

def exAlert : Alert :=
  { id := "a1", name := "High temp",
    condition :=
      { sensor_id := "s1", field := "temperature", operator := "gt",
        value := .scalar 25 },
    actions := [AlertAction.mk "notify" true, AlertAction.mk "log" false],
    triggered := false, last_triggered := some 0, cooldown := 10 }

def exReading : SensorReading :=
  { sensor_id := "s1", timestamp := 3, fields := [("temperature", 26)] }

def exAlertFresh : Alert :=
  { exAlert with last_triggered := none }

def exSensor2 : Sensor :=
  { id := "s1", name := "Temp MkII", type := "temperature", update_interval := 2 }

/-! ### Helper lemmas about the dictionary model -/

lemma dictGet_map_replace (d : List (String × α)) (k : String) (v : α)
    (h : (dictGet d k).isSome = true) :
    dictGet (d.map fun p => if p.1 = k then (k, v) else p) k = some v := by
  induction d with
  | nil => simp [dictGet] at h
  | cons p rest ih =>
      obtain ⟨k', v'⟩ := p
      simp only [List.map_cons]
      by_cases hk : k' = k
      · subst hk
        have hc : ((k', v') : String × α).1 = k' := rfl
        rw [if_pos hc]
        simp [dictGet]
      · rw [if_neg (by simpa using hk)]
        simp only [dictGet, if_neg hk] at h ⊢
        exact ih h

lemma dictGet_append_right (d e : List (String × α)) (k : String)
    (h : dictGet d k = none) :
    dictGet (d ++ e) k = dictGet e k := by
  induction d with
  | nil => rfl
  | cons p rest ih =>
      obtain ⟨k', v'⟩ := p
      by_cases hk : k' = k
      · simp [dictGet, hk] at h
      · simp [dictGet, hk] at h ⊢
        exact ih h

lemma dictGet_dictInsert (d : List (String × α)) (k : String) (v : α) :
    dictGet (dictInsert k v d) k = some v := by
  unfold dictInsert
  cases he : dictGet d k with
  | some w =>
      simp only [he, Option.isSome_some, if_true]
      exact dictGet_map_replace d k v (by rw [he]; rfl)
  | none =>
      simp only [he, Option.isSome_none, Bool.false_eq_true, if_false]
      rw [dictGet_append_right d _ k he]
      simp [dictGet]

lemma dictGet_dictErase (d : List (String × α)) (k : String) :
    dictGet (dictErase k d) k = none := by
  induction d with
  | nil => rfl
  | cons p rest ih =>
      obtain ⟨k', v'⟩ := p
      by_cases hk : k' = k
      · simpa [dictErase, hk] using ih
      · simpa [dictErase, dictGet, hk] using ih

lemma dictGet_map_append (d : List (String × List SensorReading)) (k : String)
    (r : SensorReading) (rs : List SensorReading)
    (h : dictGet d k = some rs) :
    dictGet (d.map fun p => if p.1 = k then (p.1, p.2 ++ [r]) else p) k
      = some (rs ++ [r]) := by
  induction d with
  | nil => simp [dictGet] at h
  | cons p rest ih =>
      obtain ⟨k', v'⟩ := p
      simp only [List.map_cons]
      by_cases hk : k' = k
      · subst hk
        have h1 : v' = rs := by simpa [dictGet] using h
        subst h1
        have hc : ((k', v') : String × List SensorReading).1 = k' := rfl
        rw [if_pos hc]
        simp [dictGet]
      · rw [if_neg (by simpa using hk)]
        simp only [dictGet, if_neg hk] at h ⊢
        exact ih h

lemma takeLast_sublist (n : Nat) (xs : List α) : (takeLast n xs).Sublist xs :=
  List.drop_sublist _ _

lemma takeLast_length (n : Nat) (xs : List α) :
    (takeLast n xs).length = min n xs.length := by
  simp [takeLast]
  omega

lemma timeFilter_sublist (st et : Option ℚ) (rs : List SensorReading) :
    (timeFilter st et rs).Sublist rs := by
  unfold timeFilter
  cases st with
  | none =>
      cases et with
      | none => exact List.Sublist.refl rs
      | some e => exact List.filter_sublist rs
  | some s =>
      cases et with
      | none => exact List.filter_sublist rs
      | some e => exact (List.filter_sublist _).trans (List.filter_sublist rs)

/-! ### Claim theorems -/

/-- C4: the `condition_met` computation satisfies: `gt` is met iff value >
threshold, `lt` iff value < threshold, `eq` iff |value − threshold| ≤ buffer,
`neq` iff |value − threshold| > buffer, and `between` with pair (low, high)
is met iff low ≤ value ≤ high inclusive; with threshold (18, 26), value 20
and value 26 are met and value 26.01 is not. -/
theorem condition_met_table (v t b lo hi : ℚ) (hb : 0 ≤ b) :
    (conditionMet "gt" (.scalar t) b v = some true ↔ v > t) ∧
    (conditionMet "lt" (.scalar t) b v = some true ↔ v < t) ∧
    (conditionMet "eq" (.scalar t) b v = some true ↔ |v - t| ≤ b) ∧
    (conditionMet "neq" (.scalar t) b v = some true ↔ |v - t| > b) ∧
    (conditionMet "between" (.list [lo, hi]) b v = some true ↔
       lo ≤ v ∧ v ≤ hi) ∧
    conditionMet "between" (.list [18, 26]) b 20 = some true ∧
    conditionMet "between" (.list [18, 26]) b 26 = some true ∧
    conditionMet "between" (.list [18, 26]) b (2601 / 100) = some false := by
  refine ⟨?_, ?_, ?_, ?_, ?_, ?_, ?_, ?_⟩ <;>
    simp [conditionMet] <;> norm_num

/-- Instantiation of `condition_met_table` at value 20, threshold 25,
buffer 0, range (18, 26). -/
theorem condition_met_table_witness :
    (0 : ℚ) ≤ 0 ∧
    (conditionMet "gt" (.scalar 25) 0 20 = some true ↔ (20 : ℚ) > 25) :=
  ⟨le_refl 0, (condition_met_table 20 25 0 18 26 (le_refl 0)).1⟩

/-- C1: for an alert watching the reading's sensor whose configured field is
present with value `v`, and whose condition evaluation yields a boolean
`met` (the operator/threshold shapes on which the source's comparison would
raise `TypeError` are exactly those with `alertConditionMet = none`, and
there evaluation propagates the exception with no state change), evaluation
follows the edge-triggered transition table: met ∧ ¬triggered ∧ cooldown-ok
flips `triggered` to true, stamps `last_triggered := now` and runs every
action in order; ¬met ∧ triggered clears `triggered` with no actions and no
cooldown check; every other case leaves the alert unchanged with no
actions. -/
theorem alert_transition_table (alert : Alert) (reading : SensorReading)
    (now v : ℚ) (met : Bool)
    (hsensor : alert.condition.sensor_id = reading.sensor_id)
    (hfield : dictGet reading.fields alert.condition.field = some v)
    (hmet : alertConditionMet alert v = some met) :
    (met = true → alert.triggered = false → cooldownOk alert now = true →
       evalAlert alert reading now =
         Except.ok
           ({ alert with triggered := true, last_triggered := some now },
            runActions alert.actions)) ∧
    (met = false → alert.triggered = true →
       evalAlert alert reading now =
         Except.ok ({ alert with triggered := false }, [])) ∧
    (¬(met = true ∧ alert.triggered = false ∧ cooldownOk alert now = true) →
     ¬(met = false ∧ alert.triggered = true) →
       evalAlert alert reading now = Except.ok (alert, [])) := by
  refine ⟨?_, ?_, ?_⟩
  · intro hm ht hc
    simp [evalAlert, hsensor, hfield, hmet, hm, ht, hc]
  · intro hm ht
    simp [evalAlert, hsensor, hfield, hmet, hm, ht]
  · intro h1 h2
    cases met <;>
      cases ht : alert.triggered <;>
        cases hc : cooldownOk alert now <;>
          simp_all [evalAlert, hsensor, hfield, hmet]

/-- Instantiation of `alert_transition_table`: a fresh trigger edge on the
fixture alert runs both actions in order and flips the state. -/
theorem alert_transition_table_witness :
    evalAlert exAlertFresh exReading 3 =
      Except.ok
        ({ exAlertFresh with triggered := true, last_triggered := some 3 },
         [("notify", true), ("log", false)]) :=
  (alert_transition_table exAlertFresh exReading 3 26 true rfl rfl
    (by decide)).1 rfl rfl (by decide)

/-- C9: a cooldown-suppressed edge (condition met, alert not triggered,
cooldown not yet elapsed) leaves the alert completely unchanged — in
particular `triggered` stays false and `last_triggered` keeps its old
value — and invokes no actions. -/
theorem cooldown_suppressed_edge (alert : Alert) (reading : SensorReading)
    (now v : ℚ)
    (hsensor : alert.condition.sensor_id = reading.sensor_id)
    (hfield : dictGet reading.fields alert.condition.field = some v)
    (hmet : alertConditionMet alert v = some true)
    (hnt : alert.triggered = false)
    (hcd : cooldownOk alert now = false) :
    evalAlert alert reading now = Except.ok (alert, []) := by
  simp [evalAlert, hsensor, hfield, hmet, hnt, hcd]

/-- Instantiation of `cooldown_suppressed_edge`: value 26 against `gt 25`
at t = 3 with `last_triggered = 0` and cooldown 10 changes nothing. -/
theorem cooldown_suppressed_edge_witness :
    cooldownOk exAlert 3 = false ∧
    evalAlert exAlert exReading 3 = Except.ok (exAlert, []) :=
  ⟨by norm_num [cooldownOk, exAlert],
   cooldown_suppressed_edge exAlert exReading 3 26 rfl rfl (by decide) rfl
     (by norm_num [cooldownOk, exAlert])⟩

/-- C6: when a trigger edge fires and one of the registered callbacks
raises, every action still appears in the performed-invocation list (the
`try/except` is per action), the invocation list is exactly
`runActions` of the full action sequence in order, and the
`triggered`/`last_triggered` state change is not rolled back. -/
theorem action_failure_isolated (alert : Alert) (reading : SensorReading)
    (now v : ℚ)
    (hsensor : alert.condition.sensor_id = reading.sensor_id)
    (hfield : dictGet reading.fields alert.condition.field = some v)
    (hmet : alertConditionMet alert v = some true)
    (hnt : alert.triggered = false)
    (hcd : cooldownOk alert now = true)
    (hfail : ∃ a ∈ alert.actions, a.ok = false) :
    evalAlert alert reading now =
      Except.ok
        ({ alert with triggered := true, last_triggered := some now },
         runActions alert.actions) ∧
    (runActions alert.actions).length = alert.actions.length := by
  constructor
  · simp [evalAlert, hsensor, hfield, hmet, hnt, hcd]
  · simp [runActions]

/-- Instantiation of `action_failure_isolated`: the fixture alert's second
action raises, yet the invocation list covers both actions. -/
theorem action_failure_isolated_witness :
    (∃ a ∈ exAlertFresh.actions, a.ok = false) ∧
    (runActions exAlertFresh.actions).length =
      exAlertFresh.actions.length :=
  ⟨by decide,
   (action_failure_isolated exAlertFresh exReading 3 26 rfl rfl (by decide)
     rfl (by decide) (by decide)).2⟩

/-- C3: `add_alert` with an unregistered sensor id raises the validation
error before any mutation, so the alerts list, the sensor set and the
reading store are exactly as before the call. -/
theorem add_alert_unknown_sensor (net : SensorNetwork)
    (sensor_id field operator : String) (value : ThresholdVal)
    (actions : List (String × Bool)) (nm : Option String) (cd : ℚ)
    (h : dictGet net.sensors sensor_id = none) :
    (addAlert net sensor_id field operator value actions nm cd).1 =
      Except.error ("Sensor with ID '" ++ sensor_id ++ "' does not exist") ∧
    (addAlert net sensor_id field operator value actions nm cd).2.alerts =
      net.alerts ∧
    (addAlert net sensor_id field operator value actions nm cd).2.sensors =
      net.sensors ∧
    (addAlert net sensor_id field operator value actions nm cd).2.readings =
      net.readings := by
  simp [addAlert, h]

/-- Instantiation of `add_alert_unknown_sensor` at an id not in the
fixture network. -/
theorem add_alert_unknown_sensor_witness :
    dictGet exNet0.sensors "ghost" = none ∧
    (addAlert exNet0 "ghost" "temperature" "gt" (.scalar 1) [] none 0).2.alerts =
      exNet0.alerts :=
  ⟨rfl,
   (add_alert_unknown_sensor exNet0 "ghost" "temperature" "gt" (.scalar 1)
     [] none 0 rfl).2.1⟩

/-- C2 counterexample: registering an alert with operator `between` and a
malformed threshold — low > high, or a list of three values — succeeds
through the API route instead of failing with a validation error; and
`SensorNetwork.add_alert` itself even accepts an operator outside the
enumerated set. -/
theorem malformed_between_accepted :
    exceptOk (createAlert exNet0 "s1" "temperature" "between"
      (ThresholdVal.list [5, 3]) none 0) = true ∧
    exceptOk (createAlert exNet0 "s1" "temperature" "between"
      (ThresholdVal.list [1, 2, 3]) none 0) = true ∧
    (addAlert exNet0 "s1" "temperature" "bogus" (.scalar 1) [] none 0).1 =
      Except.ok "alert_1" :=
  ⟨rfl, rfl, rfl⟩

/-- C2 amended: registering through the API with an operator outside the
enumerated set fails with a validation error, but a `between` alert is
accepted whatever the shape of its threshold — neither the route nor
`add_alert` validates the threshold. -/
theorem operator_validated_threshold_not (net : SensorNetwork)
    (sensor_id field operator : String) (value : ThresholdVal)
    (nm : Option String) (cd : ℚ)
    (hreg : (dictGet net.sensors sensor_id).isSome = true) :
    (validOperators.contains operator = false →
       createAlert net sensor_id field operator value nm cd =
         Except.error (.badRequest ("Invalid operator: " ++ operator))) ∧
    (operator = "between" →
       exceptOk (createAlert net sensor_id field operator value nm cd) =
         true) := by
  obtain ⟨w, hw⟩ := Option.isSome_iff_exists.mp hreg
  constructor
  · intro hop
    unfold createAlert
    rw [if_neg (by simp [hw]), if_pos (by simpa using hop)]
  · intro hop
    subst hop
    simp [createAlert, addAlert, hw, exceptOk, validOperators]

/-- Instantiation of `operator_validated_threshold_not`: operator `foo`
is rejected with a 400-style validation error. -/
theorem operator_validated_threshold_not_witness :
    (dictGet exNet0.sensors "s1").isSome = true ∧
    createAlert exNet0 "s1" "temperature" "foo" (.scalar 1) none 0 =
      Except.error (.badRequest "Invalid operator: foo") :=
  ⟨rfl,
   (operator_validated_threshold_not exNet0 "s1" "temperature" "foo"
     (.scalar 1) none 0 rfl).1 rfl⟩

/-- C5 (code bug): alert ids are generated as `alert_{count + 1}`, so after
creating `alert_1` and `alert_2` and deleting `alert_1`, the next creation
returns `alert_2` — equal to the id of an alert already present, not
distinct from it. -/
theorem duplicate_alert_id_after_delete :
    (addAlert exNet3 "s1" "temperature" "gt" (.scalar 30) [] none 0).1 =
      Except.ok "alert_2" ∧
    exNet3.alerts.map (fun a => a.id) = ["alert_2"] ∧
    ((exNet3.alerts.map (fun a => a.id)).contains "alert_2") = true :=
  ⟨rfl, rfl, rfl⟩

/-- C10: `add_sensor` with an id that is already registered does not fail:
the sensor object is replaced and that id's reading history is reset to the
empty list, discarding previous readings. -/
theorem add_sensor_replaces (net : SensorNetwork) (s : Sensor)
    (h : (dictGet net.sensors s.id).isSome = true) :
    dictGet (addSensor net s).sensors s.id = some s ∧
    dictGet (addSensor net s).readings s.id = some [] := by
  exact ⟨dictGet_dictInsert _ _ _, dictGet_dictInsert _ _ _⟩

/-- Instantiation of `add_sensor_replaces`: re-adding id `s1` to a network
with stored readings replaces the sensor and empties the history. -/
theorem add_sensor_replaces_witness :
    (dictGet exNetR.sensors "s1").isSome = true ∧
    dictGet (addSensor exNetR exSensor2).sensors "s1" = some exSensor2 ∧
    dictGet (addSensor exNetR exSensor2).readings "s1" = some [] :=
  ⟨rfl,
   (add_sensor_replaces exNetR exSensor2 rfl).1,
   (add_sensor_replaces exNetR exSensor2 rfl).2⟩

/-- C7 counterexample: the readings route declares `limit = Query(10, ...)`,
so a request that gives no limit returns at most 10 readings: with 11 stored
readings the result has length 10, not all 11 — the default is not
unbounded. -/
theorem default_limit_truncates :
    (storedReadings exNetR "s1").length = 11 ∧
    getSensorReadingsDefault exNetR "s1" none none =
      Except.ok (takeLast 10 (storedReadings exNetR "s1")) ∧
    (takeLast 10 (storedReadings exNetR "s1")).length = 10 :=
  ⟨rfl, rfl, rfl⟩

/-- C7 amended: appended readings are stored in append order; a query
returns a subsequence of the stored log in that order, exactly the last
`limit` readings after the optional time filtering (or fewer if fewer
remain); a query with no limit given uses the route's default limit of 10
rather than returning everything. -/
theorem readings_query_order_limit :
    (∀ (net : SensorNetwork) (S : String) (r : SensorReading)
       (rs : List SensorReading),
       dictGet net.readings S = some rs →
       dictGet (appendReading net S r).readings S = some (rs ++ [r])) ∧
    (∀ (net : SensorNetwork) (S : String) (limit : Nat) (st et : Option ℚ)
       (rs : List SensorReading),
       (dictGet net.sensors S).isSome = true →
       dictGet net.readings S = some rs →
       getSensorReadings net S limit st et =
         Except.ok (takeLast limit (timeFilter st et rs)) ∧
       (takeLast limit (timeFilter st et rs)).Sublist rs ∧
       (takeLast limit (timeFilter st et rs)).length =
         min limit (timeFilter st et rs).length) ∧
    (∀ (net : SensorNetwork) (S : String) (st et : Option ℚ),
       getSensorReadingsDefault net S st et =
         getSensorReadings net S 10 st et) := by
  refine ⟨?_, ?_, ?_⟩
  · intro net S r rs h
    exact dictGet_map_append net.readings S r rs h
  · intro net S limit st et rs hreg hr
    obtain ⟨w, hw⟩ := Option.isSome_iff_exists.mp hreg
    refine ⟨?_, ?_, ?_⟩
    · simp [getSensorReadings, storedReadings, hw, hr]
    · exact (takeLast_sublist _ _).trans (timeFilter_sublist st et rs)
    · exact takeLast_length _ _
  · intro net S st et
    rfl

/-- Instantiation of `readings_query_order_limit`: querying the fixture
network with limit 3 returns the truncated, filtered log. -/
theorem readings_query_order_limit_witness :
    dictGet exNetR.readings "s1" = some ((List.range 11).map mkR) ∧
    getSensorReadings exNetR "s1" 3 none none =
      Except.ok (takeLast 3 (timeFilter none none ((List.range 11).map mkR))) :=
  ⟨rfl,
   (readings_query_order_limit.2.1 exNetR "s1" 3 none none
     ((List.range 11).map mkR) rfl rfl).1⟩

/-- C8 counterexample: after a successful `remove_sensor`, the store-level
lookup is empty but the readings endpoint answers the removed id with a
not-found error, not an empty result, because the sensor is no longer
registered. -/
theorem removed_sensor_query_errors :
    (removeSensor exNetR "s1").1 = true ∧
    storedReadings (removeSensor exNetR "s1").2 "s1" = [] ∧
    getSensorReadings (removeSensor exNetR "s1").2 "s1" 10 none none =
      Except.error (.notFound "Sensor with ID 's1' not found") :=
  ⟨rfl, rfl, rfl⟩

/-- C8 amended: `remove_sensor` returns a boolean success indicator (true
when the id was registered, false otherwise, never an exception) and a
successful removal also removes the sensor's reading log, so the store-level
lookup yields an empty list; the readings API endpoint, however, rejects the
removed id with a not-found error since the sensor is unregistered. -/
theorem remove_sensor_amended (net : SensorNetwork) (sensor_id : String) :
    ((dictGet net.sensors sensor_id).isSome = true →
       (removeSensor net sensor_id).1 = true ∧
       dictGet (removeSensor net sensor_id).2.readings sensor_id = none ∧
       storedReadings (removeSensor net sensor_id).2 sensor_id = [] ∧
       (∀ (limit : Nat) (st et : Option ℚ),
          getSensorReadings (removeSensor net sensor_id).2 sensor_id limit st et =
            Except.error
              (.notFound ("Sensor with ID '" ++ sensor_id ++ "' not found")))) ∧
    ((dictGet net.sensors sensor_id).isSome = false →
       removeSensor net sensor_id = (false, net)) := by
  constructor
  · intro h
    unfold removeSensor
    rw [if_pos h]
    refine ⟨rfl, dictGet_dictErase _ _, ?_, ?_⟩
    · simp [storedReadings, dictGet_dictErase]
    · intro limit st et
      simp [getSensorReadings, dictGet_dictErase]
  · intro h
    unfold removeSensor
    rw [if_neg]
    simp [h]

/-- Instantiation of `remove_sensor_amended`: removing the registered
fixture sensor succeeds and empties its log. -/
theorem remove_sensor_amended_witness :
    (dictGet exNetR.sensors "s1").isSome = true ∧
    (removeSensor exNetR "s1").1 = true ∧
    storedReadings (removeSensor exNetR "s1").2 "s1" = [] :=
  ⟨rfl,
   ((remove_sensor_amended exNetR "s1").1 rfl).1,
   ((remove_sensor_amended exNetR "s1").1 rfl).2.2.1⟩

end SmartSense
